import Mathlib

/-!
Shallow embedding of laserscan_to_pointcloud/src/laserscan_to_pointcloud.cpp
(class LaserScanToPointcloud).

Modelling choices:
- Floating point scalars (float/double/tf2Scalar) are modelled by a generic
  linear ordered field K (instantiated at ℚ for concrete evaluation and at ℝ
  when the real trigonometric functions matter).  Over such a field every
  value is finite, so the boost isfinite guard in the per-sample loop is
  identically true and is omitted.
- std::cos and std::sin are passed as explicit function parameters fcos and
  fsin, and tf2 slerp (an external library function) as a parameter slerp.
- tf2::Transform is a rotation quaternion plus an origin vector; composition
  and point transformation follow the tf2 formulas.
- The TFCollector (tf_collector_) is repository code that is not part of the
  integrator source file; its query results are supplied to the integrator as
  explicit outcome values (see TfOutcomes below).
- ROS timestamps and frame-name strings only parameterize the pose queries,
  which are already abstracted into TfOutcomes, so they are not carried in the
  scan record; the emptiness test on recovery_frame_ is kept as a boolean.
-/

namespace LaserScanToPointcloud

/-- A 3-D vector, standing for tf2::Vector3. -/
structure V3 (K : Type) where
  x : K
  y : K
  z : K
deriving DecidableEq, Repr

/-- A quaternion, standing for tf2::Quaternion. -/
structure Quat (K : Type) where
  w : K
  qx : K
  qy : K
  qz : K
deriving DecidableEq, Repr

/-- A rigid transform, standing for tf2::Transform (rotation plus origin). -/
structure Transform (K : Type) where
  rot : Quat K
  origin : V3 K
deriving DecidableEq, Repr

variable {K : Type} [LinearOrderedField K]

/-- Hamilton product of quaternions. -/
def quatMul (a b : Quat K) : Quat K :=
  ⟨a.w * b.w - a.qx * b.qx - a.qy * b.qy - a.qz * b.qz,
   a.w * b.qx + a.qx * b.w + a.qy * b.qz - a.qz * b.qy,
   a.w * b.qy - a.qx * b.qz + a.qy * b.w + a.qz * b.qx,
   a.w * b.qz + a.qx * b.qy - a.qy * b.qx + a.qz * b.w⟩

/-- Quaternion conjugate. -/
def quatConj (a : Quat K) : Quat K := ⟨a.w, -a.qx, -a.qy, -a.qz⟩

/-- Rotation of a vector by a (unit) quaternion: the vector part of q v q*. -/
def quatRotate (q : Quat K) (v : V3 K) : V3 K :=
  let p := quatMul (quatMul q ⟨0, v.x, v.y, v.z⟩) (quatConj q)
  ⟨p.qx, p.qy, p.qz⟩

/-- Application of a tf2::Transform to a point: rotate then translate. -/
def transformPoint (t : Transform K) (v : V3 K) : V3 K :=
  let r := quatRotate t.rot v
  ⟨r.x + t.origin.x, r.y + t.origin.y, r.z + t.origin.z⟩

/-- Composition of tf2::Transforms (operator*). -/
def transformMul (a b : Transform K) : Transform K :=
  ⟨quatMul a.rot b.rot, transformPoint a b.origin⟩

/-- The identity transform. -/
def idTransform : Transform K := ⟨⟨1, 0, 0, 0⟩, ⟨0, 0, 0⟩⟩

/-- tf2 Vector3.setInterpolate3 v0 v1 rt: componentwise v0 + (v1 - v0) * rt. -/
def lerpV3 (a b : V3 K) (u : K) : V3 K :=
  ⟨a.x + (b.x - a.x) * u, a.y + (b.y - a.y) * u, a.z + (b.z - a.z) * u⟩

/-- The fields of sensor_msgs::LaserScan read by the integrator.  The header
stamp and time_increment only determine the timestamps of the pose queries,
which are abstracted into TfOutcomes, so they are omitted here. -/
structure LaserScan (K : Type) where
  angle_min : K
  angle_max : K
  angle_increment : K
  range_min : K
  range_max : K
  ranges : List K
  intensities : List K
deriving DecidableEq, Repr

/-- Configuration of LaserScanToPointcloud fixed at construction.  The frame
names and the tf lookup timeout only parameterize the pose queries, so only
the emptiness of recovery_frame_ is kept. -/
structure Config (K : Type) where
  min_range_cutoff_percentage_offset : K
  max_range_cutoff_percentage_offset : K
  interpolate_scans : Bool
  recovery_frame_empty : Bool

/-- Mutable members of LaserScanToPointcloud.  The 2-by-N Eigen projection
matrix is the list of its columns (cos row, sin row). -/
structure IntegratorState (K : Type) where
  polar_to_cartesian_matrix : List (K × K)
  polar_to_cartesian_matrix_angle_min : K
  polar_to_cartesian_matrix_angle_max : K
  polar_to_cartesian_matrix_angle_increment : K
  recovery_to_target_frame_transform : Transform K
  number_of_pointclouds_created : ℕ
  number_of_points_in_cloud : ℕ
  number_of_scans_assembled_in_current_pointcloud : ℕ
deriving DecidableEq, Repr

/-- Modelled from the spec: the outcomes of the PoseProvider (TFCollector)
queries issued during one integrate call.  The TFCollector implementation is
not part of the integrator source file; per the spec, lookup and sample
either return a transform (resp. an ordered list of transforms) or fail with
NotAvailable, modelled by Option.  On failure the caller-supplied output
argument is left unchanged, which is the reuse behaviour the spec describes
for the stored recovery transform. -/
structure TfOutcomes (K : Type) where
  primary_sample : Option (List (Transform K))
  primary_lookup : Option (Transform K)
  recovery_to_target_lookup : Option (Transform K)
  recovery_sample : Option (List (Transform K))
  recovery_lookup : Option (Transform K)

/-- The cosine/sine column construction loop of
updatePolarToCartesianProjectionMatrix: current_angle starts at angle_min and
is advanced by angle_increment after each column. -/
def buildProjectionColumns (fcos fsin : K → K) (increment : K) : ℕ → K → List (K × K)
  | 0, _ => []
  | n + 1, a => (fcos a, fsin a) :: buildProjectionColumns fcos fsin increment n (a + increment)

/-- LaserScanToPointcloud::updatePolarToCartesianProjectionMatrix.  Faithful
to the source: the rebuild condition compares only the column count with the
number of scan points (the angular comparisons are commented out in the
source), and the rebuild stores the scan range_min and range_max into the
angle_min and angle_max cache fields. -/
def updatePolarToCartesianProjectionMatrix (fcos fsin : K → K)
    (st : IntegratorState K) (laser_scan : LaserScan K) :
    Bool × IntegratorState K :=
  let number_of_scan_points := laser_scan.ranges.length
  if st.polar_to_cartesian_matrix.length ≠ number_of_scan_points then
    (true,
     { st with
       polar_to_cartesian_matrix :=
         buildProjectionColumns fcos fsin laser_scan.angle_increment
           number_of_scan_points laser_scan.angle_min,
       polar_to_cartesian_matrix_angle_min := laser_scan.range_min,
       polar_to_cartesian_matrix_angle_max := laser_scan.range_max,
       polar_to_cartesian_matrix_angle_increment := laser_scan.angle_increment })
  else
    (false, st)

/-- Calls made on the CloudSink (the virtual hooks) during one integrate. -/
inductive SinkEvent (K : Type) where
  | beginScan : ℕ → SinkEvent K
  | addMeasure : V3 K → K → SinkEvent K
  | finishScan : SinkEvent K
deriving DecidableEq, Repr

/-- The intensity read for sample i: laser_scan.intensities[i] when the index
is in bounds, 0 otherwise (lines 149-152 of the source). -/
def intensityAt (laser_scan : LaserScan K) (i : ℕ) : K :=
  laser_scan.intensities.getD i 0

/-- The projected point of sample i in the sensor frame, read off the cached
projection matrix: (r * C[i], r * S[i], 0). -/
def projectedPoint (table : List (K × K)) (r : K) (i : ℕ) : V3 K :=
  ⟨r * (table.getD i (0, 0)).1, r * (table.getD i (0, 0)).2, 0⟩

/-- The interpolated transform of lines 140-141: origin is the lerp of the
front and back collected origins, rotation the slerp of the front and back
collected rotations, both at parameter u. -/
def interpTransform (slerp : Quat K → Quat K → K → Quat K)
    (tfs : List (Transform K)) (u : K) : Transform K :=
  ⟨slerp (tfs.headD idTransform).rot (tfs.getLastD idTransform).rot u,
   lerpV3 (tfs.headD idTransform).origin (tfs.getLastD idTransform).origin u⟩

/-- The per-sample loop (lines 132-159).  Arguments: fuel is the number of
remaining samples, i the current sample index, pt the current value of
point_transform, u the current value of current_scan_percentage.  Returns
the emitted sink events and the number of points added to the cloud.  The
boost isfinite guard is identically true over an ordered field. -/
def scanLoop (slerp : Quat K → Quat K → K → Quat K) (interpolate_scans : Bool)
    (tfs : List (Transform K)) (laser_scan : LaserScan K) (table : List (K × K))
    (min_range_cutoff max_range_cutoff one_scan_step_percentage : K) :
    ℕ → ℕ → Transform K → K → List (SinkEvent K) × ℕ
  | 0, _, _, _ => ([], 0)
  | fuel + 1, i, pt, u =>
    let point_range_value := laser_scan.ranges.getD i 0
    if min_range_cutoff < point_range_value ∧ point_range_value < max_range_cutoff then
      let pt2 := if 2 ≤ tfs.length ∧ interpolate_scans = true then interpTransform slerp tfs u else pt
      let transformed_point := transformPoint pt2 (projectedPoint table point_range_value i)
      let rest := scanLoop slerp interpolate_scans tfs laser_scan table
        min_range_cutoff max_range_cutoff one_scan_step_percentage
        fuel (i + 1) pt2 (u + one_scan_step_percentage)
      (SinkEvent.addMeasure transformed_point (intensityAt laser_scan i) :: rest.1, rest.2 + 1)
    else
      scanLoop slerp interpolate_scans tfs laser_scan table
        min_range_cutoff max_range_cutoff one_scan_step_percentage
        fuel (i + 1) pt (u + one_scan_step_percentage)

/-- Lines 115-163 of integrateLaserScanWithShpericalLinearInterpolation: the
part after a transform chain was obtained.  tfs is collected_tfs and pt the
current point_transform.  Emits beginScan, the loop events, finishScan, and
updates the point and scan counters. -/
def emitScan (fcos fsin : K → K) (slerp : Quat K → Quat K → K → Quat K)
    (cfg : Config K) (laser_scan : LaserScan K)
    (tfs : List (Transform K)) (pt : Transform K) (st : IntegratorState K) :
    Bool × IntegratorState K × List (SinkEvent K) :=
  let st2 := (updatePolarToCartesianProjectionMatrix fcos fsin st laser_scan).2
  let number_of_scan_points := laser_scan.ranges.length
  let min_range_cutoff := laser_scan.range_min * cfg.min_range_cutoff_percentage_offset
  let max_range_cutoff := laser_scan.range_max * cfg.max_range_cutoff_percentage_offset
  let one_scan_step_percentage : K := 1 / ((number_of_scan_points - 1 : ℕ) : K)
  let pt2 := if tfs.length = 1 ∧ cfg.interpolate_scans = true then tfs.headD pt else pt
  let lp := scanLoop slerp cfg.interpolate_scans tfs laser_scan
    st2.polar_to_cartesian_matrix min_range_cutoff max_range_cutoff
    one_scan_step_percentage number_of_scan_points 0 pt2 0
  (true,
   { st2 with
     number_of_points_in_cloud := st2.number_of_points_in_cloud + lp.2,
     number_of_scans_assembled_in_current_pointcloud :=
       st2.number_of_scans_assembled_in_current_pointcloud + 1 },
   SinkEvent.beginScan number_of_scan_points :: lp.1 ++ [SinkEvent.finishScan])

/-- LaserScanToPointcloud::integrateLaserScanWithShpericalLinearInterpolation.
pt0 is the (indeterminate) initial value of the default-constructed
point_transform; every proved property is independent of it.  Returns the
boolean result, the updated member state, and the sink events. -/
def integrateLaserScan (fcos fsin : K → K) (slerp : Quat K → Quat K → K → Quat K)
    (cfg : Config K) (tfq : TfOutcomes K) (pt0 : Transform K)
    (laser_scan : LaserScan K) (st : IntegratorState K) :
    Bool × IntegratorState K × List (SinkEvent K) :=
  let primary : Bool × List (Transform K) × Transform K :=
    if cfg.interpolate_scans then
      match tfq.primary_sample with
      | some l => (true, l, pt0)
      | none => (false, [], pt0)
    else
      match tfq.primary_lookup with
      | some t => (true, [], t)
      | none => (false, [], pt0)
  if primary.1 then
    emitScan fcos fsin slerp cfg laser_scan primary.2.1 primary.2.2 st
  else if cfg.recovery_frame_empty then
    (false, st, [])
  else
    let rtt := tfq.recovery_to_target_lookup.getD st.recovery_to_target_frame_transform
    let st2 := { st with recovery_to_target_frame_transform := rtt }
    let recovered : Bool × List (Transform K) × Transform K :=
      if cfg.interpolate_scans then
        match tfq.recovery_sample with
        | some l => (true, l, pt0)
        | none => (false, [], pt0)
      else
        match tfq.recovery_lookup with
        | some t => (true, [], t)
        | none => (false, [], pt0)
    if recovered.1 then
      emitScan fcos fsin slerp cfg laser_scan
        (recovered.2.1.map (fun t => transformMul rtt t))
        (if cfg.interpolate_scans then recovered.2.2 else transformMul rtt recovered.2.2)
        st2
    else
      (false, st2, [])

/-- The gate of line 134 as a boolean predicate on a range value. -/
def gateBool (min_range_cutoff max_range_cutoff r : K) : Bool :=
  decide (min_range_cutoff < r ∧ r < max_range_cutoff)

/-- The sample indices of a scan that pass the strict range gate. -/
def keptIndices (cfg : Config K) (laser_scan : LaserScan K) : List ℕ :=
  (List.range laser_scan.ranges.length).filter
    (fun j => gateBool (laser_scan.range_min * cfg.min_range_cutoff_percentage_offset)
      (laser_scan.range_max * cfg.max_range_cutoff_percentage_offset)
      (laser_scan.ranges.getD j 0))

/-- The projection matrix as it stands after the refresh of line 115. -/
def refreshedMatrix (fcos fsin : K → K) (st : IntegratorState K)
    (laser_scan : LaserScan K) : List (K × K) :=
  (updatePolarToCartesianProjectionMatrix fcos fsin st laser_scan).2.polar_to_cartesian_matrix

theorem buildProjectionColumns_length (fcos fsin : K → K) (inc : K) :
    ∀ (n : ℕ) (a : K), (buildProjectionColumns fcos fsin inc n a).length = n
  | 0, _ => rfl
  | n + 1, a => by
    simp [buildProjectionColumns, buildProjectionColumns_length fcos fsin inc n]

theorem refreshedMatrix_length (fcos fsin : K → K) (st : IntegratorState K)
    (laser_scan : LaserScan K) :
    (refreshedMatrix fcos fsin st laser_scan).length = laser_scan.ranges.length := by
  unfold refreshedMatrix updatePolarToCartesianProjectionMatrix
  by_cases h : st.polar_to_cartesian_matrix.length ≠ laser_scan.ranges.length
  · simp [h, buildProjectionColumns_length]
  · simp only [h, if_neg, ite_false]
    exact not_ne_iff.mp h

/-- Refreshing the matrix does not depend on the stored recovery transform. -/
theorem refreshedMatrix_set_recovery (fcos fsin : K → K) (st : IntegratorState K)
    (t : Transform K) (laser_scan : LaserScan K) :
    refreshedMatrix fcos fsin { st with recovery_to_target_frame_transform := t } laser_scan =
      refreshedMatrix fcos fsin st laser_scan := by
  unfold refreshedMatrix updatePolarToCartesianProjectionMatrix
  by_cases h : st.polar_to_cartesian_matrix.length ≠ laser_scan.ranges.length <;> simp [h]

theorem keptIndices_mem (cfg : Config K) (laser_scan : LaserScan K) (j : ℕ) :
    j ∈ keptIndices cfg laser_scan ↔
      j < laser_scan.ranges.length ∧
      laser_scan.range_min * cfg.min_range_cutoff_percentage_offset < laser_scan.ranges.getD j 0 ∧
      laser_scan.ranges.getD j 0 < laser_scan.range_max * cfg.max_range_cutoff_percentage_offset := by
  simp [keptIndices, gateBool, List.mem_filter, List.mem_range, and_assoc]

/-- In any mode where the per-sample interpolation of lines 139-142 is not
active, point_transform stays constant through the loop and the emitted
events are exactly the gate-passing samples transformed by that constant. -/
theorem scanLoop_eq_const (slerp : Quat K → Quat K → K → Quat K) (interp : Bool)
    (tfs : List (Transform K)) (laser_scan : LaserScan K) (table : List (K × K))
    (minc maxc step : K) (hc : ¬(2 ≤ tfs.length ∧ interp = true)) :
    ∀ (fuel i0 : ℕ) (pt : Transform K) (u : K),
    scanLoop slerp interp tfs laser_scan table minc maxc step fuel i0 pt u =
      (((List.range' i0 fuel).filter
          (fun j => gateBool minc maxc (laser_scan.ranges.getD j 0))).map
        (fun j => SinkEvent.addMeasure
          (transformPoint pt (projectedPoint table (laser_scan.ranges.getD j 0) j))
          (intensityAt laser_scan j)),
       ((List.range' i0 fuel).filter
          (fun j => gateBool minc maxc (laser_scan.ranges.getD j 0))).length)
  | 0, i0, pt, u => by simp [scanLoop]
  | fuel + 1, i0, pt, u => by
    rw [List.range'_succ]
    by_cases hg : gateBool minc maxc (laser_scan.ranges.getD i0 0) = true
    · have hgp : minc < laser_scan.ranges.getD i0 0 ∧ laser_scan.ranges.getD i0 0 < maxc :=
        of_decide_eq_true hg
      simp only [scanLoop, if_pos hgp, if_neg hc,
        scanLoop_eq_const slerp interp tfs laser_scan table minc maxc step hc fuel (i0 + 1) pt
          (u + step),
        List.filter_cons, hg, eq_self_iff_true, if_true, List.map_cons, List.length_cons]
    · have hgn : ¬(minc < laser_scan.ranges.getD i0 0 ∧ laser_scan.ranges.getD i0 0 < maxc) :=
        fun hp => hg (decide_eq_true hp)
      have hgf : gateBool minc maxc (laser_scan.ranges.getD i0 0) = false :=
        Bool.not_eq_true _ |>.mp hg
      simp only [scanLoop, if_neg hgn,
        scanLoop_eq_const slerp interp tfs laser_scan table minc maxc step hc fuel (i0 + 1) pt
          (u + step),
        List.filter_cons, hgf, Bool.false_eq_true, if_false]

/-- In interpolating mode with at least two collected transforms, the sample
at index j is transformed by the interpolated transform at parameter
j * step, independently of the incoming point_transform, and the parameter
advances by step per sample whether or not the sample passed the gate. -/
theorem scanLoop_eq_interp (slerp : Quat K → Quat K → K → Quat K) (interp : Bool)
    (tfs : List (Transform K)) (laser_scan : LaserScan K) (table : List (K × K))
    (minc maxc step : K) (hc : 2 ≤ tfs.length ∧ interp = true) :
    ∀ (fuel i0 : ℕ) (pt : Transform K),
    scanLoop slerp interp tfs laser_scan table minc maxc step fuel i0 pt ((i0 : K) * step) =
      (((List.range' i0 fuel).filter
          (fun j => gateBool minc maxc (laser_scan.ranges.getD j 0))).map
        (fun (j : ℕ) => SinkEvent.addMeasure
          (transformPoint (interpTransform slerp tfs ((j : K) * step))
            (projectedPoint table (laser_scan.ranges.getD j 0) j))
          (intensityAt laser_scan j)),
       ((List.range' i0 fuel).filter
          (fun j => gateBool minc maxc (laser_scan.ranges.getD j 0))).length)
  | 0, i0, pt => by simp [scanLoop]
  | fuel + 1, i0, pt => by
    rw [List.range'_succ]
    have hu : (i0 : K) * step + step = ((i0 + 1 : ℕ) : K) * step := by push_cast; ring
    by_cases hg : gateBool minc maxc (laser_scan.ranges.getD i0 0) = true
    · have hgp : minc < laser_scan.ranges.getD i0 0 ∧ laser_scan.ranges.getD i0 0 < maxc :=
        of_decide_eq_true hg
      simp only [scanLoop, if_pos hgp, if_pos hc, hu,
        scanLoop_eq_interp slerp interp tfs laser_scan table minc maxc step hc fuel (i0 + 1)
          (interpTransform slerp tfs ((i0 : K) * step)),
        List.filter_cons, hg, eq_self_iff_true, if_true, List.map_cons, List.length_cons]
    · have hgn : ¬(minc < laser_scan.ranges.getD i0 0 ∧ laser_scan.ranges.getD i0 0 < maxc) :=
        fun hp => hg (decide_eq_true hp)
      have hgf : gateBool minc maxc (laser_scan.ranges.getD i0 0) = false :=
        Bool.not_eq_true _ |>.mp hg
      simp only [scanLoop, if_neg hgn, hu,
        scanLoop_eq_interp slerp interp tfs laser_scan table minc maxc step hc fuel (i0 + 1) pt,
        List.filter_cons, hgf, Bool.false_eq_true, if_false]

/-- Specialization of scanLoop_eq_interp to the loop entry point (index 0,
parameter 0). -/
theorem scanLoop_interp_zero (slerp : Quat K → Quat K → K → Quat K) (interp : Bool)
    (tfs : List (Transform K)) (laser_scan : LaserScan K) (table : List (K × K))
    (minc maxc step : K) (hc : 2 ≤ tfs.length ∧ interp = true) (fuel : ℕ) (pt : Transform K) :
    scanLoop slerp interp tfs laser_scan table minc maxc step fuel 0 pt 0 =
      (((List.range' 0 fuel).filter
          (fun j => gateBool minc maxc (laser_scan.ranges.getD j 0))).map
        (fun (j : ℕ) => SinkEvent.addMeasure
          (transformPoint (interpTransform slerp tfs ((j : K) * step))
            (projectedPoint table (laser_scan.ranges.getD j 0) j))
          (intensityAt laser_scan j)),
       ((List.range' 0 fuel).filter
          (fun j => gateBool minc maxc (laser_scan.ranges.getD j 0))).length) := by
  have h := scanLoop_eq_interp slerp interp tfs laser_scan table minc maxc step hc fuel 0 pt
  simp only [Nat.cast_zero, zero_mul] at h
  exact h

theorem emitScan_fst (fcos fsin : K → K) (slerp : Quat K → Quat K → K → Quat K)
    (cfg : Config K) (laser_scan : LaserScan K) (tfs : List (Transform K))
    (pt : Transform K) (st : IntegratorState K) :
    (emitScan fcos fsin slerp cfg laser_scan tfs pt st).1 = true := rfl

/-- The events emitted by emitScan when the per-sample interpolation is not
active: one beginScan, one addMeasure per gate-passing sample transformed by
the constant point_transform (after the single-pose override of line 123),
and one finishScan. -/
theorem emitScan_events_const (fcos fsin : K → K) (slerp : Quat K → Quat K → K → Quat K)
    (cfg : Config K) (laser_scan : LaserScan K) (tfs : List (Transform K))
    (pt : Transform K) (st : IntegratorState K)
    (hc : ¬(2 ≤ tfs.length ∧ cfg.interpolate_scans = true)) :
    (emitScan fcos fsin slerp cfg laser_scan tfs pt st).2.2 =
      SinkEvent.beginScan laser_scan.ranges.length ::
      (keptIndices cfg laser_scan).map
        (fun j => SinkEvent.addMeasure
          (transformPoint
            (if tfs.length = 1 ∧ cfg.interpolate_scans = true then tfs.headD pt else pt)
            (projectedPoint (refreshedMatrix fcos fsin st laser_scan)
              (laser_scan.ranges.getD j 0) j))
          (intensityAt laser_scan j))
      ++ [SinkEvent.finishScan] := by
  simp only [emitScan, refreshedMatrix, keptIndices, List.range_eq_range',
    scanLoop_eq_const slerp cfg.interpolate_scans tfs laser_scan
      ((updatePolarToCartesianProjectionMatrix fcos fsin st laser_scan).2.polar_to_cartesian_matrix)
      (laser_scan.range_min * cfg.min_range_cutoff_percentage_offset)
      (laser_scan.range_max * cfg.max_range_cutoff_percentage_offset)
      (1 / ((laser_scan.ranges.length - 1 : ℕ) : K)) hc]

/-- The events emitted by emitScan in interpolating mode with at least two
collected transforms: the sample at index j is transformed by the transform
interpolated at parameter j / (N - 1). -/
theorem emitScan_events_interp (fcos fsin : K → K) (slerp : Quat K → Quat K → K → Quat K)
    (cfg : Config K) (laser_scan : LaserScan K) (tfs : List (Transform K))
    (pt : Transform K) (st : IntegratorState K)
    (hc : 2 ≤ tfs.length ∧ cfg.interpolate_scans = true) :
    (emitScan fcos fsin slerp cfg laser_scan tfs pt st).2.2 =
      SinkEvent.beginScan laser_scan.ranges.length ::
      (keptIndices cfg laser_scan).map
        (fun (j : ℕ) => SinkEvent.addMeasure
          (transformPoint
            (interpTransform slerp tfs ((j : K) * (1 / ((laser_scan.ranges.length - 1 : ℕ) : K))))
            (projectedPoint (refreshedMatrix fcos fsin st laser_scan)
              (laser_scan.ranges.getD j 0) j))
          (intensityAt laser_scan j))
      ++ [SinkEvent.finishScan] := by
  have hone : ¬(tfs.length = 1 ∧ cfg.interpolate_scans = true) := by
    intro h1
    have h2 := hc.1
    have h3 := h1.1
    omega
  simp only [emitScan, refreshedMatrix, keptIndices, List.range_eq_range', if_neg hone,
    scanLoop_interp_zero slerp cfg.interpolate_scans tfs laser_scan
      ((updatePolarToCartesianProjectionMatrix fcos fsin st laser_scan).2.polar_to_cartesian_matrix)
      (laser_scan.range_min * cfg.min_range_cutoff_percentage_offset)
      (laser_scan.range_max * cfg.max_range_cutoff_percentage_offset)
      (1 / ((laser_scan.ranges.length - 1 : ℕ) : K)) hc]

/-- Step 1 success in interpolating mode routes directly into emission with
the collected transforms. -/
theorem integrate_primary_sample (fcos fsin : K → K) (slerp : Quat K → Quat K → K → Quat K)
    (cfg : Config K) (tfq : TfOutcomes K) (pt0 : Transform K) (laser_scan : LaserScan K)
    (st : IntegratorState K) (tfs : List (Transform K))
    (hin : cfg.interpolate_scans = true) (hs : tfq.primary_sample = some tfs) :
    integrateLaserScan fcos fsin slerp cfg tfq pt0 laser_scan st =
      emitScan fcos fsin slerp cfg laser_scan tfs pt0 st := by
  simp [integrateLaserScan, hin, hs]

/-- Step 1 success in non-interpolating mode routes directly into emission
with an empty collected list and the looked-up midpoint transform. -/
theorem integrate_primary_lookup (fcos fsin : K → K) (slerp : Quat K → Quat K → K → Quat K)
    (cfg : Config K) (tfq : TfOutcomes K) (pt0 : Transform K) (laser_scan : LaserScan K)
    (st : IntegratorState K) (t : Transform K)
    (hin : cfg.interpolate_scans = false) (hs : tfq.primary_lookup = some t) :
    integrateLaserScan fcos fsin slerp cfg tfq pt0 laser_scan st =
      emitScan fcos fsin slerp cfg laser_scan [] t st := by
  simp [integrateLaserScan, hin, hs]

/-- The recovery path in interpolating mode: the any-time lookup result (or,
on its failure, the previously stored recovery transform) is stored back
into the state and left-multiplied onto every collected transform. -/
theorem integrate_recovery_sample (fcos fsin : K → K) (slerp : Quat K → Quat K → K → Quat K)
    (cfg : Config K) (tfq : TfOutcomes K) (pt0 : Transform K) (laser_scan : LaserScan K)
    (st : IntegratorState K) (tfs : List (Transform K))
    (hin : cfg.interpolate_scans = true) (hs : tfq.primary_sample = none)
    (hre : cfg.recovery_frame_empty = false) (hr : tfq.recovery_sample = some tfs) :
    integrateLaserScan fcos fsin slerp cfg tfq pt0 laser_scan st =
      emitScan fcos fsin slerp cfg laser_scan
        (tfs.map (fun t => transformMul
          (tfq.recovery_to_target_lookup.getD st.recovery_to_target_frame_transform) t))
        pt0
        { st with recovery_to_target_frame_transform :=
            tfq.recovery_to_target_lookup.getD st.recovery_to_target_frame_transform } := by
  simp [integrateLaserScan, hin, hs, hre, hr]

/-- The recovery path in non-interpolating mode: the recovered midpoint
transform is left-multiplied by the (possibly refreshed) stored recovery
transform. -/
theorem integrate_recovery_lookup (fcos fsin : K → K) (slerp : Quat K → Quat K → K → Quat K)
    (cfg : Config K) (tfq : TfOutcomes K) (pt0 : Transform K) (laser_scan : LaserScan K)
    (st : IntegratorState K) (t : Transform K)
    (hin : cfg.interpolate_scans = false) (hs : tfq.primary_lookup = none)
    (hre : cfg.recovery_frame_empty = false) (hr : tfq.recovery_lookup = some t) :
    integrateLaserScan fcos fsin slerp cfg tfq pt0 laser_scan st =
      emitScan fcos fsin slerp cfg laser_scan []
        (transformMul
          (tfq.recovery_to_target_lookup.getD st.recovery_to_target_frame_transform) t)
        { st with recovery_to_target_frame_transform :=
            tfq.recovery_to_target_lookup.getD st.recovery_to_target_frame_transform } := by
  simp [integrateLaserScan, hin, hs, hre, hr]

/-- Emission never changes the stored recovery transform. -/
theorem emitScan_recovery_field (fcos fsin : K → K) (slerp : Quat K → Quat K → K → Quat K)
    (cfg : Config K) (laser_scan : LaserScan K) (tfs : List (Transform K))
    (pt : Transform K) (st : IntegratorState K) :
    (emitScan fcos fsin slerp cfg laser_scan tfs pt st).2.1.recovery_to_target_frame_transform =
      st.recovery_to_target_frame_transform := by
  simp only [emitScan]
  by_cases h : st.polar_to_cartesian_matrix.length ≠ laser_scan.ranges.length <;>
    simp [updatePolarToCartesianProjectionMatrix, h]

/-- Claim C2: the cache refresh is claimed to return false without mutation
exactly when the cached geometry matches the scan triple (N, theta_min,
delta_theta).  The source compares only the column count: on a scan whose
sample count matches the cached column count but whose angle_min differs
from the cached one, refresh still returns false and mutates nothing, for
every choice of the trigonometric functions. -/
theorem refresh_ignores_angular_geometry :
    ∀ fcos fsin : ℚ → ℚ,
    updatePolarToCartesianProjectionMatrix fcos fsin
        ⟨[(1, 0)], 0, 0, 0, idTransform, 0, 0, 0⟩ ⟨1, 1, 0, 0, 10, [5], []⟩ =
      (false, ⟨[(1, 0)], 0, 0, 0, idTransform, 0, 0, 0⟩) ∧
    (⟨[(1, 0)], 0, 0, 0, idTransform, 0, 0, 0⟩ : IntegratorState ℚ).polar_to_cartesian_matrix_angle_min ≠
      (⟨1, 1, 0, 0, 10, [5], []⟩ : LaserScan ℚ).angle_min := by
  intro fcos fsin
  exact ⟨rfl, by norm_num⟩

/-- Claim C3: after a rebuild the cached angle_min field is claimed to equal
the scan angle_min; the source instead stores the scan range_min there (and
range_max in the angle_max field).  On a fresh cache and a scan with
angle_min one half and range_min one tenth, the rebuilt cache records one
tenth in its angle_min field, for every choice of the trigonometric
functions. -/
theorem refresh_stores_range_limits_in_angle_fields :
    ∀ fcos fsin : ℚ → ℚ,
    (updatePolarToCartesianProjectionMatrix fcos fsin
        ⟨[], 0, 0, 0, idTransform, 0, 0, 0⟩ ⟨1/2, 1/2, 0, 1/10, 10, [2], []⟩).1 = true ∧
    (updatePolarToCartesianProjectionMatrix fcos fsin
        ⟨[], 0, 0, 0, idTransform, 0, 0, 0⟩
        ⟨1/2, 1/2, 0, 1/10, 10, [2], []⟩).2.polar_to_cartesian_matrix_angle_min = 1/10 ∧
    (⟨1/2, 1/2, 0, 1/10, 10, [2], []⟩ : LaserScan ℚ).angle_min = 1/2 ∧
    (1/10 : ℚ) ≠ 1/2 := by
  intro fcos fsin
  exact ⟨rfl, rfl, rfl, by norm_num⟩

/-- Claim C9: a failed integrate is not atomic with respect to the stored
recovery transform.  Concrete run over the rationals: the primary lookup
fails, recovery_frame is non-empty, the any-time lookup of the recovery
transform succeeds with a translation by one along x, the recovery pose
lookup then fails; integrate returns false and emits nothing, yet the stored
recovery transform has been overwritten. -/
theorem integrate_recovery_transform_mutated_on_failure :
    (integrateLaserScan (id : ℚ → ℚ) (id : ℚ → ℚ) ((fun a _ _ => a) : Quat ℚ → Quat ℚ → ℚ → Quat ℚ)
        ⟨1, 1, false, false⟩
        ⟨none, none, some ⟨⟨1, 0, 0, 0⟩, ⟨1, 0, 0⟩⟩, none, none⟩
        idTransform ⟨0, 0, 0, 0, 10, [1], []⟩
        ⟨[], 0, 0, 0, idTransform, 0, 0, 0⟩).1 = false ∧
    (integrateLaserScan (id : ℚ → ℚ) (id : ℚ → ℚ) ((fun a _ _ => a) : Quat ℚ → Quat ℚ → ℚ → Quat ℚ)
        ⟨1, 1, false, false⟩
        ⟨none, none, some ⟨⟨1, 0, 0, 0⟩, ⟨1, 0, 0⟩⟩, none, none⟩
        idTransform ⟨0, 0, 0, 0, 10, [1], []⟩
        ⟨[], 0, 0, 0, idTransform, 0, 0, 0⟩).2.2 = [] ∧
    (integrateLaserScan (id : ℚ → ℚ) (id : ℚ → ℚ) ((fun a _ _ => a) : Quat ℚ → Quat ℚ → ℚ → Quat ℚ)
        ⟨1, 1, false, false⟩
        ⟨none, none, some ⟨⟨1, 0, 0, 0⟩, ⟨1, 0, 0⟩⟩, none, none⟩
        idTransform ⟨0, 0, 0, 0, 10, [1], []⟩
        ⟨[], 0, 0, 0, idTransform, 0, 0, 0⟩).2.1.recovery_to_target_frame_transform =
      (⟨⟨1, 0, 0, 0⟩, ⟨1, 0, 0⟩⟩ : Transform ℚ) ∧
    (⟨⟨1, 0, 0, 0⟩, ⟨1, 0, 0⟩⟩ : Transform ℚ) ≠
      (⟨[], 0, 0, 0, idTransform, 0, 0, 0⟩ :
        IntegratorState ℚ).recovery_to_target_frame_transform := by
  refine ⟨rfl, rfl, rfl, by decide⟩

/-- Claim C6: when the primary pose lookup fails and the recovery path also
fails to yield a transform (including an empty recovery frame), integrate
returns false, emits no sink events at all (so neither beginScan nor
finishScan nor any measurement), and leaves the three counters unchanged. -/
theorem integrate_pose_unavailable_no_effects (fcos fsin : K → K)
    (slerp : Quat K → Quat K → K → Quat K) (cfg : Config K) (tfq : TfOutcomes K)
    (pt0 : Transform K) (laser_scan : LaserScan K) (st : IntegratorState K)
    (h1 : cfg.interpolate_scans = true → tfq.primary_sample = none)
    (h2 : cfg.interpolate_scans = false → tfq.primary_lookup = none)
    (h3 : cfg.recovery_frame_empty = true ∨
      ((cfg.interpolate_scans = true → tfq.recovery_sample = none) ∧
       (cfg.interpolate_scans = false → tfq.recovery_lookup = none))) :
    (integrateLaserScan fcos fsin slerp cfg tfq pt0 laser_scan st).1 = false ∧
    (integrateLaserScan fcos fsin slerp cfg tfq pt0 laser_scan st).2.2 = [] ∧
    (integrateLaserScan fcos fsin slerp cfg tfq pt0 laser_scan st).2.1.number_of_points_in_cloud =
      st.number_of_points_in_cloud ∧
    (integrateLaserScan fcos fsin slerp cfg tfq pt0 laser_scan
        st).2.1.number_of_scans_assembled_in_current_pointcloud =
      st.number_of_scans_assembled_in_current_pointcloud ∧
    (integrateLaserScan fcos fsin slerp cfg tfq pt0 laser_scan st).2.1.number_of_pointclouds_created =
      st.number_of_pointclouds_created := by
  cases hin : cfg.interpolate_scans with
  | false =>
    rcases h3 with h3 | ⟨h3a, h3b⟩
    · simp [integrateLaserScan, hin, h2 hin, h3]
    · by_cases hre : cfg.recovery_frame_empty <;>
        simp [integrateLaserScan, hin, h2 hin, h3b hin, hre]
  | true =>
    rcases h3 with h3 | ⟨h3a, h3b⟩
    · simp [integrateLaserScan, hin, h1 hin, h3]
    · by_cases hre : cfg.recovery_frame_empty <;>
        simp [integrateLaserScan, hin, h1 hin, h3a hin, hre]

theorem integrate_pose_unavailable_no_effects_witness :
    ((⟨1, 1, false, true⟩ : Config ℚ).interpolate_scans = true →
      (⟨none, none, none, none, none⟩ : TfOutcomes ℚ).primary_sample = none) ∧
    ((⟨1, 1, false, true⟩ : Config ℚ).interpolate_scans = false →
      (⟨none, none, none, none, none⟩ : TfOutcomes ℚ).primary_lookup = none) ∧
    ((⟨1, 1, false, true⟩ : Config ℚ).recovery_frame_empty = true ∨
      (((⟨1, 1, false, true⟩ : Config ℚ).interpolate_scans = true →
        (⟨none, none, none, none, none⟩ : TfOutcomes ℚ).recovery_sample = none) ∧
       ((⟨1, 1, false, true⟩ : Config ℚ).interpolate_scans = false →
        (⟨none, none, none, none, none⟩ : TfOutcomes ℚ).recovery_lookup = none))) ∧
    ((integrateLaserScan (id : ℚ → ℚ) (id : ℚ → ℚ) ((fun a _ _ => a) : Quat ℚ → Quat ℚ → ℚ → Quat ℚ)
        ⟨1, 1, false, true⟩ ⟨none, none, none, none, none⟩ idTransform
        ⟨0, 0, 0, 0, 10, [1], []⟩ ⟨[], 0, 0, 0, idTransform, 3, 4, 5⟩).1 = false ∧
     (integrateLaserScan (id : ℚ → ℚ) (id : ℚ → ℚ) ((fun a _ _ => a) : Quat ℚ → Quat ℚ → ℚ → Quat ℚ)
        ⟨1, 1, false, true⟩ ⟨none, none, none, none, none⟩ idTransform
        ⟨0, 0, 0, 0, 10, [1], []⟩ ⟨[], 0, 0, 0, idTransform, 3, 4, 5⟩).2.2 = [] ∧
     (integrateLaserScan (id : ℚ → ℚ) (id : ℚ → ℚ) ((fun a _ _ => a) : Quat ℚ → Quat ℚ → ℚ → Quat ℚ)
        ⟨1, 1, false, true⟩ ⟨none, none, none, none, none⟩ idTransform
        ⟨0, 0, 0, 0, 10, [1], []⟩
        ⟨[], 0, 0, 0, idTransform, 3, 4, 5⟩).2.1.number_of_points_in_cloud =
      (⟨[], 0, 0, 0, idTransform, 3, 4, 5⟩ : IntegratorState ℚ).number_of_points_in_cloud ∧
     (integrateLaserScan (id : ℚ → ℚ) (id : ℚ → ℚ) ((fun a _ _ => a) : Quat ℚ → Quat ℚ → ℚ → Quat ℚ)
        ⟨1, 1, false, true⟩ ⟨none, none, none, none, none⟩ idTransform
        ⟨0, 0, 0, 0, 10, [1], []⟩
        ⟨[], 0, 0, 0, idTransform, 3, 4, 5⟩).2.1.number_of_scans_assembled_in_current_pointcloud =
      (⟨[], 0, 0, 0, idTransform, 3, 4, 5⟩ :
        IntegratorState ℚ).number_of_scans_assembled_in_current_pointcloud ∧
     (integrateLaserScan (id : ℚ → ℚ) (id : ℚ → ℚ) ((fun a _ _ => a) : Quat ℚ → Quat ℚ → ℚ → Quat ℚ)
        ⟨1, 1, false, true⟩ ⟨none, none, none, none, none⟩ idTransform
        ⟨0, 0, 0, 0, 10, [1], []⟩
        ⟨[], 0, 0, 0, idTransform, 3, 4, 5⟩).2.1.number_of_pointclouds_created =
      (⟨[], 0, 0, 0, idTransform, 3, 4, 5⟩ : IntegratorState ℚ).number_of_pointclouds_created) :=
  ⟨by decide, by decide, by decide,
   integrate_pose_unavailable_no_effects (id : ℚ → ℚ) (id : ℚ → ℚ) ((fun a _ _ => a) : Quat ℚ → Quat ℚ → ℚ → Quat ℚ)
     ⟨1, 1, false, true⟩ ⟨none, none, none, none, none⟩ idTransform
     ⟨0, 0, 0, 0, 10, [1], []⟩ ⟨[], 0, 0, 0, idTransform, 3, 4, 5⟩
     (by decide) (by decide) (by decide)⟩

/-- Claim C5: in interpolating mode with at least two returned poses, the
transform applied to sample j is the lerp of the first and last collected
translations and the slerp of the first and last collected rotations at
parameter j * (1 / (N - 1)); the parameter is advanced once per sample even
for samples dropped by a gate, so it stays proportional to the index. -/
theorem integrate_interpolates_first_last_at_index_fraction (fcos fsin : K → K)
    (slerp : Quat K → Quat K → K → Quat K) (cfg : Config K) (tfq : TfOutcomes K)
    (pt0 : Transform K) (laser_scan : LaserScan K) (st : IntegratorState K)
    (tfs : List (Transform K))
    (hin : cfg.interpolate_scans = true) (hs : tfq.primary_sample = some tfs)
    (hlen : 2 ≤ tfs.length) :
    (integrateLaserScan fcos fsin slerp cfg tfq pt0 laser_scan st).2.2 =
      SinkEvent.beginScan laser_scan.ranges.length ::
      (keptIndices cfg laser_scan).map
        (fun (j : ℕ) => SinkEvent.addMeasure
          (transformPoint
            (interpTransform slerp tfs
              ((j : K) * (1 / ((laser_scan.ranges.length - 1 : ℕ) : K))))
            (projectedPoint (refreshedMatrix fcos fsin st laser_scan)
              (laser_scan.ranges.getD j 0) j))
          (intensityAt laser_scan j))
      ++ [SinkEvent.finishScan] := by
  rw [integrate_primary_sample fcos fsin slerp cfg tfq pt0 laser_scan st tfs hin hs,
    emitScan_events_interp fcos fsin slerp cfg laser_scan tfs pt0 st ⟨hlen, hin⟩]

theorem integrate_interpolates_first_last_at_index_fraction_witness :
    ((⟨1, 1, true, true⟩ : Config ℚ).interpolate_scans = true ∧
     (⟨some [idTransform, ⟨⟨1, 0, 0, 0⟩, ⟨1, 0, 0⟩⟩], none, none, none, none⟩ :
        TfOutcomes ℚ).primary_sample = some [idTransform, ⟨⟨1, 0, 0, 0⟩, ⟨1, 0, 0⟩⟩] ∧
     2 ≤ ([idTransform, ⟨⟨1, 0, 0, 0⟩, ⟨1, 0, 0⟩⟩] : List (Transform ℚ)).length) ∧
    (integrateLaserScan (id : ℚ → ℚ) (id : ℚ → ℚ)
        ((fun a _ _ => a) : Quat ℚ → Quat ℚ → ℚ → Quat ℚ)
        ⟨1, 1, true, true⟩
        ⟨some [idTransform, ⟨⟨1, 0, 0, 0⟩, ⟨1, 0, 0⟩⟩], none, none, none, none⟩
        idTransform ⟨0, 0, 0, 0, 10, [1, 1], []⟩
        ⟨[], 0, 0, 0, idTransform, 0, 0, 0⟩).2.2 =
      SinkEvent.beginScan (⟨0, 0, 0, 0, 10, [1, 1], []⟩ : LaserScan ℚ).ranges.length ::
      (keptIndices (⟨1, 1, true, true⟩ : Config ℚ) ⟨0, 0, 0, 0, 10, [1, 1], []⟩).map
        (fun (j : ℕ) => SinkEvent.addMeasure
          (transformPoint
            (interpTransform ((fun a _ _ => a) : Quat ℚ → Quat ℚ → ℚ → Quat ℚ)
              [idTransform, ⟨⟨1, 0, 0, 0⟩, ⟨1, 0, 0⟩⟩]
              ((j : ℚ) *
                (1 / (((⟨0, 0, 0, 0, 10, [1, 1], []⟩ : LaserScan ℚ).ranges.length - 1 : ℕ) : ℚ))))
            (projectedPoint
              (refreshedMatrix (id : ℚ → ℚ) (id : ℚ → ℚ)
                ⟨[], 0, 0, 0, idTransform, 0, 0, 0⟩ ⟨0, 0, 0, 0, 10, [1, 1], []⟩)
              ((⟨0, 0, 0, 0, 10, [1, 1], []⟩ : LaserScan ℚ).ranges.getD j 0) j))
          (intensityAt (⟨0, 0, 0, 0, 10, [1, 1], []⟩ : LaserScan ℚ) j))
      ++ [SinkEvent.finishScan] :=
  ⟨⟨rfl, rfl, by decide⟩,
   integrate_interpolates_first_last_at_index_fraction (id : ℚ → ℚ) (id : ℚ → ℚ)
     ((fun a _ _ => a) : Quat ℚ → Quat ℚ → ℚ → Quat ℚ)
     ⟨1, 1, true, true⟩
     ⟨some [idTransform, ⟨⟨1, 0, 0, 0⟩, ⟨1, 0, 0⟩⟩], none, none, none, none⟩
     idTransform ⟨0, 0, 0, 0, 10, [1, 1], []⟩ ⟨[], 0, 0, 0, idTransform, 0, 0, 0⟩
     [idTransform, ⟨⟨1, 0, 0, 0⟩, ⟨1, 0, 0⟩⟩] rfl rfl (by decide)⟩

/-- Claim C7: with interpolation enabled and exactly one pose returned by
the sampling operation, integrate downgrades to the constant-transform path,
using that single pose for every sample, and still emits the scan with a
true result. -/
theorem integrate_single_pose_downgrade (fcos fsin : K → K)
    (slerp : Quat K → Quat K → K → Quat K) (cfg : Config K) (tfq : TfOutcomes K)
    (pt0 : Transform K) (laser_scan : LaserScan K) (st : IntegratorState K)
    (t : Transform K)
    (hin : cfg.interpolate_scans = true) (hs : tfq.primary_sample = some [t]) :
    (integrateLaserScan fcos fsin slerp cfg tfq pt0 laser_scan st).1 = true ∧
    (integrateLaserScan fcos fsin slerp cfg tfq pt0 laser_scan st).2.2 =
      SinkEvent.beginScan laser_scan.ranges.length ::
      (keptIndices cfg laser_scan).map
        (fun j => SinkEvent.addMeasure
          (transformPoint t
            (projectedPoint (refreshedMatrix fcos fsin st laser_scan)
              (laser_scan.ranges.getD j 0) j))
          (intensityAt laser_scan j))
      ++ [SinkEvent.finishScan] := by
  have heq := integrate_primary_sample fcos fsin slerp cfg tfq pt0 laser_scan st [t] hin hs
  constructor
  · rw [heq]
    exact emitScan_fst fcos fsin slerp cfg laser_scan [t] pt0 st
  · rw [heq, emitScan_events_const fcos fsin slerp cfg laser_scan [t] pt0 st (by simp)]
    simp [hin]

theorem integrate_single_pose_downgrade_witness :
    ((⟨1, 1, true, true⟩ : Config ℚ).interpolate_scans = true ∧
     (⟨some [⟨⟨1, 0, 0, 0⟩, ⟨0, 0, 1⟩⟩], none, none, none, none⟩ :
        TfOutcomes ℚ).primary_sample = some [⟨⟨1, 0, 0, 0⟩, ⟨0, 0, 1⟩⟩]) ∧
    ((integrateLaserScan (id : ℚ → ℚ) (id : ℚ → ℚ)
        ((fun a _ _ => a) : Quat ℚ → Quat ℚ → ℚ → Quat ℚ)
        ⟨1, 1, true, true⟩ ⟨some [⟨⟨1, 0, 0, 0⟩, ⟨0, 0, 1⟩⟩], none, none, none, none⟩
        idTransform ⟨0, 0, 0, 0, 10, [1], []⟩
        ⟨[], 0, 0, 0, idTransform, 0, 0, 0⟩).1 = true ∧
     (integrateLaserScan (id : ℚ → ℚ) (id : ℚ → ℚ)
        ((fun a _ _ => a) : Quat ℚ → Quat ℚ → ℚ → Quat ℚ)
        ⟨1, 1, true, true⟩ ⟨some [⟨⟨1, 0, 0, 0⟩, ⟨0, 0, 1⟩⟩], none, none, none, none⟩
        idTransform ⟨0, 0, 0, 0, 10, [1], []⟩
        ⟨[], 0, 0, 0, idTransform, 0, 0, 0⟩).2.2 =
      SinkEvent.beginScan (⟨0, 0, 0, 0, 10, [1], []⟩ : LaserScan ℚ).ranges.length ::
      (keptIndices (⟨1, 1, true, true⟩ : Config ℚ) ⟨0, 0, 0, 0, 10, [1], []⟩).map
        (fun j => SinkEvent.addMeasure
          (transformPoint (⟨⟨1, 0, 0, 0⟩, ⟨0, 0, 1⟩⟩ : Transform ℚ)
            (projectedPoint
              (refreshedMatrix (id : ℚ → ℚ) (id : ℚ → ℚ)
                ⟨[], 0, 0, 0, idTransform, 0, 0, 0⟩ ⟨0, 0, 0, 0, 10, [1], []⟩)
              ((⟨0, 0, 0, 0, 10, [1], []⟩ : LaserScan ℚ).ranges.getD j 0) j))
          (intensityAt (⟨0, 0, 0, 0, 10, [1], []⟩ : LaserScan ℚ) j))
      ++ [SinkEvent.finishScan]) :=
  ⟨⟨rfl, rfl⟩,
   integrate_single_pose_downgrade (id : ℚ → ℚ) (id : ℚ → ℚ)
     ((fun a _ _ => a) : Quat ℚ → Quat ℚ → ℚ → Quat ℚ)
     ⟨1, 1, true, true⟩ ⟨some [⟨⟨1, 0, 0, 0⟩, ⟨0, 0, 1⟩⟩], none, none, none, none⟩
     idTransform ⟨0, 0, 0, 0, 10, [1], []⟩ ⟨[], 0, 0, 0, idTransform, 0, 0, 0⟩
     ⟨⟨1, 0, 0, 0⟩, ⟨0, 0, 1⟩⟩ rfl rfl⟩

/-- Claim C4: when the primary pose lookup fails, recovery_frame is
non-empty, and the recovery pose lookup succeeds, every pose entering the
per-sample loop is the stored recovery-to-target transform left-multiplied
onto the recovered pose, so in the single-pose mode every emitted point is
the composite transform applied to the projected sensor-frame point; the
stored transform used is the any-time refresh result when that lookup
succeeded and the previously stored value when it failed, without aborting. -/
theorem integrate_recovery_composition (fcos fsin : K → K)
    (slerp : Quat K → Quat K → K → Quat K) (cfg : Config K) (tfq : TfOutcomes K)
    (pt0 : Transform K) (laser_scan : LaserScan K) (st : IntegratorState K)
    (h1 : cfg.interpolate_scans = true → tfq.primary_sample = none)
    (h2 : cfg.interpolate_scans = false → tfq.primary_lookup = none)
    (h3 : cfg.recovery_frame_empty = false) :
    (tfq.recovery_to_target_lookup = none →
      tfq.recovery_to_target_lookup.getD st.recovery_to_target_frame_transform =
        st.recovery_to_target_frame_transform) ∧
    (∀ tfs, cfg.interpolate_scans = true → tfq.recovery_sample = some tfs →
      integrateLaserScan fcos fsin slerp cfg tfq pt0 laser_scan st =
        emitScan fcos fsin slerp cfg laser_scan
          (tfs.map (fun t => transformMul
            (tfq.recovery_to_target_lookup.getD st.recovery_to_target_frame_transform) t))
          pt0
          { st with recovery_to_target_frame_transform :=
              tfq.recovery_to_target_lookup.getD st.recovery_to_target_frame_transform }) ∧
    (∀ t, cfg.interpolate_scans = false → tfq.recovery_lookup = some t →
      (integrateLaserScan fcos fsin slerp cfg tfq pt0 laser_scan st).1 = true ∧
      (integrateLaserScan fcos fsin slerp cfg tfq pt0 laser_scan
          st).2.1.recovery_to_target_frame_transform =
        tfq.recovery_to_target_lookup.getD st.recovery_to_target_frame_transform ∧
      ∀ p ι, SinkEvent.addMeasure p ι ∈
          (integrateLaserScan fcos fsin slerp cfg tfq pt0 laser_scan st).2.2 →
        ∃ j, j < laser_scan.ranges.length ∧
          p = transformPoint
            (transformMul
              (tfq.recovery_to_target_lookup.getD st.recovery_to_target_frame_transform) t)
            (projectedPoint (refreshedMatrix fcos fsin st laser_scan)
              (laser_scan.ranges.getD j 0) j) ∧
          ι = intensityAt laser_scan j) := by
  refine ⟨fun h => by rw [h, Option.getD_none], ?_, ?_⟩
  · intro tfs hin hr
    exact integrate_recovery_sample fcos fsin slerp cfg tfq pt0 laser_scan st tfs hin
      (h1 hin) h3 hr
  · intro t hin hr
    have heq := integrate_recovery_lookup fcos fsin slerp cfg tfq pt0 laser_scan st t hin
      (h2 hin) h3 hr
    refine ⟨by rw [heq]; rfl, ?_, ?_⟩
    · rw [heq, emitScan_recovery_field]
    · intro p ι hm
      rw [heq, emitScan_events_const fcos fsin slerp cfg laser_scan [] _ _ (by simp)] at hm
      simp only [refreshedMatrix_set_recovery] at hm
      simp [keptIndices_mem] at hm
      obtain ⟨j, ⟨hj, hg1, hg2⟩, hp, hι⟩ := hm
      exact ⟨j, hj, by rw [List.getD_eq_getElem?_getD]; exact hp.symm, hι.symm⟩

theorem integrate_recovery_composition_witness :
    (((⟨1, 1, false, false⟩ : Config ℚ).interpolate_scans = true →
        (⟨none, none, none, none, some ⟨⟨1, 0, 0, 0⟩, ⟨0, 0, 1⟩⟩⟩ :
          TfOutcomes ℚ).primary_sample = none) ∧
     ((⟨1, 1, false, false⟩ : Config ℚ).interpolate_scans = false →
        (⟨none, none, none, none, some ⟨⟨1, 0, 0, 0⟩, ⟨0, 0, 1⟩⟩⟩ :
          TfOutcomes ℚ).primary_lookup = none) ∧
     (⟨1, 1, false, false⟩ : Config ℚ).recovery_frame_empty = false) ∧
    (((⟨none, none, none, none, some ⟨⟨1, 0, 0, 0⟩, ⟨0, 0, 1⟩⟩⟩ :
          TfOutcomes ℚ).recovery_to_target_lookup = none →
        (⟨none, none, none, none, some ⟨⟨1, 0, 0, 0⟩, ⟨0, 0, 1⟩⟩⟩ :
            TfOutcomes ℚ).recovery_to_target_lookup.getD
            (⟨[], 0, 0, 0, ⟨⟨1, 0, 0, 0⟩, ⟨1, 0, 0⟩⟩, 0, 0, 0⟩ :
              IntegratorState ℚ).recovery_to_target_frame_transform =
          (⟨[], 0, 0, 0, ⟨⟨1, 0, 0, 0⟩, ⟨1, 0, 0⟩⟩, 0, 0, 0⟩ :
            IntegratorState ℚ).recovery_to_target_frame_transform) ∧
     (∀ tfs, (⟨1, 1, false, false⟩ : Config ℚ).interpolate_scans = true →
        (⟨none, none, none, none, some ⟨⟨1, 0, 0, 0⟩, ⟨0, 0, 1⟩⟩⟩ :
          TfOutcomes ℚ).recovery_sample = some tfs →
        integrateLaserScan (id : ℚ → ℚ) (id : ℚ → ℚ)
            ((fun a _ _ => a) : Quat ℚ → Quat ℚ → ℚ → Quat ℚ)
            ⟨1, 1, false, false⟩ ⟨none, none, none, none, some ⟨⟨1, 0, 0, 0⟩, ⟨0, 0, 1⟩⟩⟩
            idTransform ⟨0, 0, 0, 0, 10, [1], []⟩
            ⟨[], 0, 0, 0, ⟨⟨1, 0, 0, 0⟩, ⟨1, 0, 0⟩⟩, 0, 0, 0⟩ =
          emitScan (id : ℚ → ℚ) (id : ℚ → ℚ)
            ((fun a _ _ => a) : Quat ℚ → Quat ℚ → ℚ → Quat ℚ)
            ⟨1, 1, false, false⟩ ⟨0, 0, 0, 0, 10, [1], []⟩
            (tfs.map (fun t => transformMul
              ((⟨none, none, none, none, some ⟨⟨1, 0, 0, 0⟩, ⟨0, 0, 1⟩⟩⟩ :
                  TfOutcomes ℚ).recovery_to_target_lookup.getD
                (⟨[], 0, 0, 0, ⟨⟨1, 0, 0, 0⟩, ⟨1, 0, 0⟩⟩, 0, 0, 0⟩ :
                  IntegratorState ℚ).recovery_to_target_frame_transform) t))
            idTransform
            { (⟨[], 0, 0, 0, ⟨⟨1, 0, 0, 0⟩, ⟨1, 0, 0⟩⟩, 0, 0, 0⟩ : IntegratorState ℚ) with
              recovery_to_target_frame_transform :=
                (⟨none, none, none, none, some ⟨⟨1, 0, 0, 0⟩, ⟨0, 0, 1⟩⟩⟩ :
                    TfOutcomes ℚ).recovery_to_target_lookup.getD
                  (⟨[], 0, 0, 0, ⟨⟨1, 0, 0, 0⟩, ⟨1, 0, 0⟩⟩, 0, 0, 0⟩ :
                    IntegratorState ℚ).recovery_to_target_frame_transform }) ∧
     (∀ t, (⟨1, 1, false, false⟩ : Config ℚ).interpolate_scans = false →
        (⟨none, none, none, none, some ⟨⟨1, 0, 0, 0⟩, ⟨0, 0, 1⟩⟩⟩ :
          TfOutcomes ℚ).recovery_lookup = some t →
        (integrateLaserScan (id : ℚ → ℚ) (id : ℚ → ℚ)
            ((fun a _ _ => a) : Quat ℚ → Quat ℚ → ℚ → Quat ℚ)
            ⟨1, 1, false, false⟩ ⟨none, none, none, none, some ⟨⟨1, 0, 0, 0⟩, ⟨0, 0, 1⟩⟩⟩
            idTransform ⟨0, 0, 0, 0, 10, [1], []⟩
            ⟨[], 0, 0, 0, ⟨⟨1, 0, 0, 0⟩, ⟨1, 0, 0⟩⟩, 0, 0, 0⟩).1 = true ∧
        (integrateLaserScan (id : ℚ → ℚ) (id : ℚ → ℚ)
            ((fun a _ _ => a) : Quat ℚ → Quat ℚ → ℚ → Quat ℚ)
            ⟨1, 1, false, false⟩ ⟨none, none, none, none, some ⟨⟨1, 0, 0, 0⟩, ⟨0, 0, 1⟩⟩⟩
            idTransform ⟨0, 0, 0, 0, 10, [1], []⟩
            ⟨[], 0, 0, 0, ⟨⟨1, 0, 0, 0⟩, ⟨1, 0, 0⟩⟩, 0, 0,
              0⟩).2.1.recovery_to_target_frame_transform =
          (⟨none, none, none, none, some ⟨⟨1, 0, 0, 0⟩, ⟨0, 0, 1⟩⟩⟩ :
              TfOutcomes ℚ).recovery_to_target_lookup.getD
            (⟨[], 0, 0, 0, ⟨⟨1, 0, 0, 0⟩, ⟨1, 0, 0⟩⟩, 0, 0, 0⟩ :
              IntegratorState ℚ).recovery_to_target_frame_transform ∧
        ∀ p ι, SinkEvent.addMeasure p ι ∈
            (integrateLaserScan (id : ℚ → ℚ) (id : ℚ → ℚ)
              ((fun a _ _ => a) : Quat ℚ → Quat ℚ → ℚ → Quat ℚ)
              ⟨1, 1, false, false⟩ ⟨none, none, none, none, some ⟨⟨1, 0, 0, 0⟩, ⟨0, 0, 1⟩⟩⟩
              idTransform ⟨0, 0, 0, 0, 10, [1], []⟩
              ⟨[], 0, 0, 0, ⟨⟨1, 0, 0, 0⟩, ⟨1, 0, 0⟩⟩, 0, 0, 0⟩).2.2 →
          ∃ j, j < (⟨0, 0, 0, 0, 10, [1], []⟩ : LaserScan ℚ).ranges.length ∧
            p = transformPoint
              (transformMul
                ((⟨none, none, none, none, some ⟨⟨1, 0, 0, 0⟩, ⟨0, 0, 1⟩⟩⟩ :
                    TfOutcomes ℚ).recovery_to_target_lookup.getD
                  (⟨[], 0, 0, 0, ⟨⟨1, 0, 0, 0⟩, ⟨1, 0, 0⟩⟩, 0, 0, 0⟩ :
                    IntegratorState ℚ).recovery_to_target_frame_transform) t)
              (projectedPoint
                (refreshedMatrix (id : ℚ → ℚ) (id : ℚ → ℚ)
                  ⟨[], 0, 0, 0, ⟨⟨1, 0, 0, 0⟩, ⟨1, 0, 0⟩⟩, 0, 0, 0⟩
                  ⟨0, 0, 0, 0, 10, [1], []⟩)
                ((⟨0, 0, 0, 0, 10, [1], []⟩ : LaserScan ℚ).ranges.getD j 0) j) ∧
            ι = intensityAt (⟨0, 0, 0, 0, 10, [1], []⟩ : LaserScan ℚ) j)) :=
  ⟨⟨by decide, by decide, rfl⟩,
   integrate_recovery_composition (id : ℚ → ℚ) (id : ℚ → ℚ)
     ((fun a _ _ => a) : Quat ℚ → Quat ℚ → ℚ → Quat ℚ)
     ⟨1, 1, false, false⟩ ⟨none, none, none, none, some ⟨⟨1, 0, 0, 0⟩, ⟨0, 0, 1⟩⟩⟩
     idTransform ⟨0, 0, 0, 0, 10, [1], []⟩
     ⟨[], 0, 0, 0, ⟨⟨1, 0, 0, 0⟩, ⟨1, 0, 0⟩⟩, 0, 0, 0⟩
     (by decide) (by decide) rfl⟩

/-- Claim C8: the range gate is strict on both sides.  A sample index is
kept exactly when its range lies strictly between range_min times the lower
cutoff percentage and range_max times the upper cutoff percentage; samples
exactly at either cutoff are never kept; and every integrate call either
emits nothing or emits exactly one measurement per kept index (in index
order), so no measurement comes from a sample outside the strict gate. -/
theorem integrate_range_gate_strict (fcos fsin : K → K)
    (slerp : Quat K → Quat K → K → Quat K) (cfg : Config K) (tfq : TfOutcomes K)
    (pt0 : Transform K) (laser_scan : LaserScan K) (st : IntegratorState K) :
    (∀ j, j ∈ keptIndices cfg laser_scan ↔
      (j < laser_scan.ranges.length ∧
       laser_scan.range_min * cfg.min_range_cutoff_percentage_offset < laser_scan.ranges.getD j 0 ∧
       laser_scan.ranges.getD j 0 < laser_scan.range_max * cfg.max_range_cutoff_percentage_offset)) ∧
    (∀ j, (laser_scan.ranges.getD j 0 = laser_scan.range_min * cfg.min_range_cutoff_percentage_offset ∨
           laser_scan.ranges.getD j 0 = laser_scan.range_max * cfg.max_range_cutoff_percentage_offset) →
      j ∉ keptIndices cfg laser_scan) ∧
    ((integrateLaserScan fcos fsin slerp cfg tfq pt0 laser_scan st).2.2 = [] ∨
     ∃ tr : ℕ → Transform K,
       (integrateLaserScan fcos fsin slerp cfg tfq pt0 laser_scan st).2.2 =
         SinkEvent.beginScan laser_scan.ranges.length ::
         (keptIndices cfg laser_scan).map
           (fun j => SinkEvent.addMeasure
             (transformPoint (tr j)
               (projectedPoint (refreshedMatrix fcos fsin st laser_scan)
                 (laser_scan.ranges.getD j 0) j))
             (intensityAt laser_scan j))
         ++ [SinkEvent.finishScan]) := by
  refine ⟨keptIndices_mem cfg laser_scan, ?_, ?_⟩
  · intro j hj hmem
    rw [keptIndices_mem] at hmem
    rcases hj with hj | hj
    · exact absurd hmem.2.1 (by rw [hj]; exact lt_irrefl _)
    · exact absurd hmem.2.2 (by rw [hj]; exact lt_irrefl _)
  · cases hin : cfg.interpolate_scans with
    | true =>
      rcases hps : tfq.primary_sample with _ | tfs
      · cases hre : cfg.recovery_frame_empty with
        | true => left; simp [integrateLaserScan, hin, hps, hre]
        | false =>
          rcases hrs : tfq.recovery_sample with _ | tfs
          · left; simp [integrateLaserScan, hin, hps, hre, hrs]
          · have heq := integrate_recovery_sample fcos fsin slerp cfg tfq pt0 laser_scan st
              tfs hin hps hre hrs
            by_cases hlen : 2 ≤ (tfs.map (fun t => transformMul
                (tfq.recovery_to_target_lookup.getD st.recovery_to_target_frame_transform)
                t)).length
            · refine Or.inr ⟨fun (j : ℕ) => interpTransform slerp
                (tfs.map (fun t => transformMul
                  (tfq.recovery_to_target_lookup.getD st.recovery_to_target_frame_transform) t))
                ((j : K) * (1 / ((laser_scan.ranges.length - 1 : ℕ) : K))), ?_⟩
              rw [heq, emitScan_events_interp fcos fsin slerp cfg laser_scan _ pt0 _
                ⟨hlen, hin⟩]
              simp only [refreshedMatrix_set_recovery]
            · refine Or.inr ⟨fun _ => (if (tfs.map (fun t => transformMul
                  (tfq.recovery_to_target_lookup.getD st.recovery_to_target_frame_transform)
                  t)).length = 1 ∧ cfg.interpolate_scans = true
                then (tfs.map (fun t => transformMul
                  (tfq.recovery_to_target_lookup.getD st.recovery_to_target_frame_transform)
                  t)).headD pt0 else pt0), ?_⟩
              rw [heq, emitScan_events_const fcos fsin slerp cfg laser_scan _ pt0 _
                (fun h => hlen h.1)]
              simp only [refreshedMatrix_set_recovery]
      · have heq := integrate_primary_sample fcos fsin slerp cfg tfq pt0 laser_scan st tfs
          hin hps
        by_cases hlen : 2 ≤ tfs.length
        · refine Or.inr ⟨fun (j : ℕ) => interpTransform slerp tfs
            ((j : K) * (1 / ((laser_scan.ranges.length - 1 : ℕ) : K))), ?_⟩
          rw [heq, emitScan_events_interp fcos fsin slerp cfg laser_scan tfs pt0 st
            ⟨hlen, hin⟩]
        · refine Or.inr ⟨fun _ => (if tfs.length = 1 ∧ cfg.interpolate_scans = true
            then tfs.headD pt0 else pt0), ?_⟩
          rw [heq, emitScan_events_const fcos fsin slerp cfg laser_scan tfs pt0 st
            (fun h => hlen h.1)]
    | false =>
      rcases hpl : tfq.primary_lookup with _ | t
      · cases hre : cfg.recovery_frame_empty with
        | true => left; simp [integrateLaserScan, hin, hpl, hre]
        | false =>
          rcases hrl : tfq.recovery_lookup with _ | t
          · left; simp [integrateLaserScan, hin, hpl, hre, hrl]
          · have heq := integrate_recovery_lookup fcos fsin slerp cfg tfq pt0 laser_scan st
              t hin hpl hre hrl
            refine Or.inr ⟨fun _ => transformMul
              (tfq.recovery_to_target_lookup.getD st.recovery_to_target_frame_transform) t,
              ?_⟩
            rw [heq, emitScan_events_const fcos fsin slerp cfg laser_scan [] _ _
              (by simp [hin])]
            simp only [refreshedMatrix_set_recovery]
            simp [hin]
      · have heq := integrate_primary_lookup fcos fsin slerp cfg tfq pt0 laser_scan st t
          hin hpl
        refine Or.inr ⟨fun _ => t, ?_⟩
        rw [heq, emitScan_events_const fcos fsin slerp cfg laser_scan [] t st
          (by simp [hin])]
        simp [hin]

/-- Claim C10: every index used in the per-sample loop is in bounds: after
the refresh the projection matrix has exactly one column per scan sample
(the refresh rebuilds whenever the cached column count differs), the kept
sample indices are all below the number of samples (so ranges and matrix
columns are read in bounds), and the intensity is read from the intensities
array only for indices below its length, with zero substituted otherwise. -/
theorem integrate_loop_indices_in_bounds (fcos fsin : K → K) (cfg : Config K)
    (st : IntegratorState K) (laser_scan : LaserScan K) (i : ℕ)
    (hi : i < laser_scan.intensities.length) :
    (updatePolarToCartesianProjectionMatrix fcos fsin st
        laser_scan).2.polar_to_cartesian_matrix.length = laser_scan.ranges.length ∧
    intensityAt laser_scan i = laser_scan.intensities.get ⟨i, hi⟩ ∧
    (∀ j, j ∈ keptIndices cfg laser_scan → j < laser_scan.ranges.length) ∧
    (∀ j, laser_scan.intensities.length ≤ j → intensityAt laser_scan j = 0) := by
  refine ⟨refreshedMatrix_length fcos fsin st laser_scan, ?_, ?_, ?_⟩
  · rw [intensityAt, List.getD_eq_getElem laser_scan.intensities 0 hi]
    exact (List.get_eq_getElem laser_scan.intensities ⟨i, hi⟩).symm
  · exact fun j hj => ((keptIndices_mem cfg laser_scan j).mp hj).1
  · exact fun j hj => List.getD_eq_default laser_scan.intensities 0 hj

theorem integrate_loop_indices_in_bounds_witness :
    0 < (⟨0, 0, 0, 0, 10, [1, 2], [7]⟩ : LaserScan ℚ).intensities.length ∧
    ((updatePolarToCartesianProjectionMatrix (id : ℚ → ℚ) (id : ℚ → ℚ)
        ⟨[], 0, 0, 0, idTransform, 0, 0, 0⟩
        ⟨0, 0, 0, 0, 10, [1, 2], [7]⟩).2.polar_to_cartesian_matrix.length =
      (⟨0, 0, 0, 0, 10, [1, 2], [7]⟩ : LaserScan ℚ).ranges.length ∧
     intensityAt (⟨0, 0, 0, 0, 10, [1, 2], [7]⟩ : LaserScan ℚ) 0 =
      (⟨0, 0, 0, 0, 10, [1, 2], [7]⟩ : LaserScan ℚ).intensities.get ⟨0, by decide⟩ ∧
     (∀ j, j ∈ keptIndices (⟨1, 1, false, true⟩ : Config ℚ) ⟨0, 0, 0, 0, 10, [1, 2], [7]⟩ →
        j < (⟨0, 0, 0, 0, 10, [1, 2], [7]⟩ : LaserScan ℚ).ranges.length) ∧
     (∀ j, (⟨0, 0, 0, 0, 10, [1, 2], [7]⟩ : LaserScan ℚ).intensities.length ≤ j →
        intensityAt (⟨0, 0, 0, 0, 10, [1, 2], [7]⟩ : LaserScan ℚ) j = 0)) :=
  ⟨by decide,
   integrate_loop_indices_in_bounds (id : ℚ → ℚ) (id : ℚ → ℚ) ⟨1, 1, false, true⟩
     ⟨[], 0, 0, 0, idTransform, 0, 0, 0⟩ ⟨0, 0, 0, 0, 10, [1, 2], [7]⟩ 0 (by decide)⟩

/-- Applying the identity transform leaves a point unchanged. -/
theorem transformPoint_idTransform (v : V3 K) : transformPoint idTransform v = v := by
  cases v with
  | mk x y z =>
    simp [transformPoint, idTransform, quatRotate, quatMul, quatConj, V3.mk.injEq]

/-- Claim C1: with the PoseProvider returning the identity for every query,
each kept sample is claimed to be emitted as the point obtained from the
scan angles, regardless of the projection cache contents left by preceding
scans.  Counterexample run over the reals: scan A (one sample, angle_min 0)
fills the cache; scan B has the same sample count but angle_min pi, the
cache is not refreshed (only the column count is compared), and the emitted
point is (1, 0, 0), computed from the stale cosine and sine of angle 0,
whereas the claimed point (r cos(angle_min + 0 increment), r sin(...), 0)
is (-1, 0, 0). -/
theorem integrate_stale_cache_breaks_identity_pose_projection :
    (integrateLaserScan Real.cos Real.sin
        ((fun a _ _ => a) : Quat ℝ → Quat ℝ → ℝ → Quat ℝ)
        ⟨1, 1, false, true⟩ ⟨none, some idTransform, none, none, none⟩ idTransform
        ⟨Real.pi, Real.pi, 0, 0, 10, [1], []⟩
        (integrateLaserScan Real.cos Real.sin
          ((fun a _ _ => a) : Quat ℝ → Quat ℝ → ℝ → Quat ℝ)
          ⟨1, 1, false, true⟩ ⟨none, some idTransform, none, none, none⟩ idTransform
          ⟨0, 0, 0, 0, 10, [1], []⟩ ⟨[], 0, 0, 0, idTransform, 0, 0, 0⟩).2.1).2.2 =
      [SinkEvent.beginScan 1, SinkEvent.addMeasure ⟨1, 0, 0⟩ 0, SinkEvent.finishScan] ∧
    (⟨1, 0, 0⟩ : V3 ℝ) ≠
      ⟨(⟨Real.pi, Real.pi, 0, 0, 10, [1], []⟩ : LaserScan ℝ).ranges.getD 0 0 *
          Real.cos ((⟨Real.pi, Real.pi, 0, 0, 10, [1], []⟩ : LaserScan ℝ).angle_min +
            0 * (⟨Real.pi, Real.pi, 0, 0, 10, [1], []⟩ : LaserScan ℝ).angle_increment),
        (⟨Real.pi, Real.pi, 0, 0, 10, [1], []⟩ : LaserScan ℝ).ranges.getD 0 0 *
          Real.sin ((⟨Real.pi, Real.pi, 0, 0, 10, [1], []⟩ : LaserScan ℝ).angle_min +
            0 * (⟨Real.pi, Real.pi, 0, 0, 10, [1], []⟩ : LaserScan ℝ).angle_increment),
        0⟩ := by
  constructor
  · rw [integrate_primary_lookup Real.cos Real.sin
      ((fun a _ _ => a) : Quat ℝ → Quat ℝ → ℝ → Quat ℝ)
      ⟨1, 1, false, true⟩ ⟨none, some idTransform, none, none, none⟩ idTransform
      ⟨0, 0, 0, 0, 10, [1], []⟩ ⟨[], 0, 0, 0, idTransform, 0, 0, 0⟩ idTransform rfl rfl]
    rw [integrate_primary_lookup Real.cos Real.sin
      ((fun a _ _ => a) : Quat ℝ → Quat ℝ → ℝ → Quat ℝ)
      ⟨1, 1, false, true⟩ ⟨none, some idTransform, none, none, none⟩ idTransform
      ⟨Real.pi, Real.pi, 0, 0, 10, [1], []⟩ _ idTransform rfl rfl]
    rw [emitScan_events_const Real.cos Real.sin
      ((fun a _ _ => a) : Quat ℝ → Quat ℝ → ℝ → Quat ℝ)
      ⟨1, 1, false, true⟩ ⟨Real.pi, Real.pi, 0, 0, 10, [1], []⟩ [] idTransform _ (by simp)]
    have hst1 : (emitScan Real.cos Real.sin
        ((fun a _ _ => a) : Quat ℝ → Quat ℝ → ℝ → Quat ℝ)
        ⟨1, 1, false, true⟩ ⟨0, 0, 0, 0, 10, [1], []⟩ [] idTransform
        ⟨[], 0, 0, 0, idTransform, 0, 0, 0⟩).2.1.polar_to_cartesian_matrix =
        [(Real.cos 0, Real.sin 0)] := rfl
    have hrm : refreshedMatrix Real.cos Real.sin
        (emitScan Real.cos Real.sin ((fun a _ _ => a) : Quat ℝ → Quat ℝ → ℝ → Quat ℝ)
          ⟨1, 1, false, true⟩ ⟨0, 0, 0, 0, 10, [1], []⟩ [] idTransform
          ⟨[], 0, 0, 0, idTransform, 0, 0, 0⟩).2.1
        ⟨Real.pi, Real.pi, 0, 0, 10, [1], []⟩ = [(Real.cos 0, Real.sin 0)] := by
      unfold refreshedMatrix updatePolarToCartesianProjectionMatrix
      simp [hst1]
    have hkept : keptIndices (⟨1, 1, false, true⟩ : Config ℝ)
        ⟨Real.pi, Real.pi, 0, 0, 10, [1], []⟩ = [0] := by
      norm_num [keptIndices, gateBool, List.range_succ, List.range_zero, List.filter_cons,
        List.filter_nil, Bool.and_eq_true, decide_eq_true_eq]
    simp [hkept, hrm, transformPoint_idTransform, projectedPoint, intensityAt]
  · norm_num [Real.cos_pi, V3.mk.injEq]

end LaserScanToPointcloud
